import Mathlib

/-!
# Verification of the finstat-diagnostic-engine extraction core

Shallow embedding of the extraction-and-validation engine of the
`finstat-diagnostic-engine` repository.  Python floats are modelled as
rationals (`ℚ`), Python `None`-or-value fields as `Option`, text as
`List Char`, and a Python function that can raise an exception that
escapes to its caller is modelled with an `Option`/sum result.

Sources embedded (from `src/extractors/`):
* `metrica_m001.py` — M001 Provisión/Cartera Total (classifier, record).
* `metrica_m002.py` — M002 ROE (numeric token extractor, page scanner,
  plausibility retry, classifier, record).
* `metrica_m003.py` — M003 NPL Ratio (chained metric, classifier, record).
* `metrica_m004.py` — M004 Coverage Ratio (classifier, record).
* `metrica_m005.py` — M005 Cartera Riesgosa C+D+E (classifier, record).
* `extraer_todas_metricas.py` — orchestrator and coherence validator.

The parser modules `parsers/extraer_tabla_inteligente.py`,
`parsers/extraer_desde_pagina_95.py` and
`parsers/extraer_calificacion_riesgo.py` are not part of the sources;
their outputs are abstracted as explicit inputs, and the single pure
function imported from them that a claim is about
(`calcular_cartera_vencida_desde_cobertura`) is modelled from the spec.
-/

/-! ## Numeric token extractor (`metrica_m002.py`, `extraer_numeros_de_linea`)

The Python code runs `re.findall(r'\(?([\d,]+)\)?', linea)`: the capture
group collects exactly the maximal runs of digits and commas, in
left-to-right order (the optional parentheses around a run are consumed
but not captured).  Each captured run has its commas removed and is
parsed with `float`; a run consisting only of commas parses as the empty
string and raises `ValueError`, which the loop skips.  A parsed value is
kept only when it is strictly greater than 1000. -/

namespace M002

/-- A character matched by the character class `[\d,]`. -/
def es_char_numerico (c : Char) : Bool := c.isDigit || c = ','

/-- Splits a character list into the maximal runs of `[\d,]` characters,
left to right; `acc` holds the (reversed) run currently being read. -/
def tokens_aux : List Char → List Char → List (List Char)
  | [], acc => if acc.isEmpty then [] else [acc.reverse]
  | c :: cs, acc =>
    if es_char_numerico c then
      tokens_aux cs (c :: acc)
    else if acc.isEmpty then
      tokens_aux cs []
    else
      acc.reverse :: tokens_aux cs []

/-- All maximal `[\d,]` runs of a line, in order of appearance: the
successive captures of `re.findall(r'\(?([\d,]+)\)?', linea)`. -/
def tokens_numericos (l : List Char) : List (List Char) := tokens_aux l []

/-- Decimal value of a digit string (`float` on a digit-only string). -/
def valor_digitos (ds : List Char) : Nat :=
  ds.foldl (fun n c => 10 * n + (c.toNat - '0'.toNat)) 0

/-- `match.replace(',', '')` followed by `float(...)`: `none` models the
`ValueError` raised on an all-comma token (empty string after the
replace), which the Python loop skips with `continue`. -/
def valor_token (t : List Char) : Option Nat :=
  let ds := t.filter (fun c => c ≠ ',')
  if ds.isEmpty then none else some (valor_digitos ds)

/-- `extraer_numeros_de_linea(linea)`: magnitudes of the digit-and-comma
runs of the line, in order, keeping only values strictly above 1000. -/
def extraer_numeros_de_linea (linea : List Char) : List Nat :=
  (tokens_numericos linea).filterMap fun t =>
    match valor_token t with
    | none => none
    | some n => if 1000 < n then some n else none

/-- All parsed magnitudes of the line, in order, before the noise-floor
filter (auxiliary view used to state the filtering property). -/
def numeros_crudos (linea : List Char) : List Nat :=
  (tokens_numericos linea).filterMap valor_token

/-- `evaluar_desempeno(roe)` from `metrica_m002.py`. -/
def evaluar_desempeno (roe : ℚ) : String :=
  if roe < 0.05 then "BAJO"
  else if roe < 0.10 then "MEDIO"
  else if roe < 0.15 then "ALTO"
  else "EXCELENTE"

end M002

/-! ## Classifiers of the other metric modules -/

namespace M001

/-- `evaluar_nivel_riesgo(ratio)` from `metrica_m001.py`. -/
def evaluar_nivel_riesgo (ratio : ℚ) : String :=
  if ratio < 0.04 then "BAJO"
  else if ratio < 0.07 then "MEDIO"
  else if ratio < 0.10 then "ALTO"
  else "CRÍTICO"

end M001

namespace M003

/-- `evaluar_calidad_cartera(npl_ratio)` from `metrica_m003.py`. -/
def evaluar_calidad_cartera (npl_ratio : ℚ) : String :=
  if npl_ratio < 0.03 then "EXCELENTE"
  else if npl_ratio < 0.05 then "BUENO"
  else if npl_ratio < 0.08 then "ACEPTABLE"
  else if npl_ratio < 0.12 then "ALTO"
  else "CRÍTICO"

end M003

namespace M004

/-- `evaluar_nivel_cobertura(coverage)` from `metrica_m004.py`. -/
def evaluar_nivel_cobertura (coverage : ℚ) : String :=
  if coverage > 1.50 then "CONSERVADOR"
  else if coverage ≥ 1.00 then "ADECUADO"
  else if coverage ≥ 0.80 then "LÍMITE"
  else "INSUFICIENTE"

end M004

namespace M005

/-- `evaluar_nivel_riesgo(ratio)` from `metrica_m005.py`. -/
def evaluar_nivel_riesgo (ratio : ℚ) : String :=
  if ratio < 0.03 then "EXCELENTE"
  else if ratio < 0.05 then "BUENO"
  else if ratio < 0.08 then "ACEPTABLE"
  else if ratio < 0.12 then "ALTO"
  else "CRÍTICO"

end M005

/-! ## Metric records (`@dataclass` + `__post_init__`)

A Python dataclass instantiation first stores the supplied fields and
then runs `__post_init__`, which overwrites the derived `cambio_yoy`
field(s); every record the extractors build therefore passes through the
corresponding `post_init` function below. -/

/-- `@dataclass MetricaM001` of `metrica_m001.py`. -/
structure MetricaM001 where
  provision_2024 : ℚ
  provision_2023 : ℚ
  cartera_2024 : ℚ
  cartera_2023 : ℚ
  ratio_2024 : ℚ
  ratio_2023 : ℚ
  nivel_riesgo : String
  pagina_fuente : Nat
  fecha_extraccion : String
  id : String := "M001"
  nombre : String := "Provisión/Cartera Total"
  cambio_yoy : ℚ := 0
  deriving DecidableEq

/-- `MetricaM001.__post_init__`: `cambio_yoy = ratio_2024 - ratio_2023`. -/
def MetricaM001.post_init (m : MetricaM001) : MetricaM001 :=
  { m with cambio_yoy := m.ratio_2024 - m.ratio_2023 }

/-- `@dataclass MetricaM002` of `metrica_m002.py`. -/
structure MetricaM002 where
  utilidad_neta_2024 : ℚ
  utilidad_neta_2023 : ℚ
  patrimonio_2024 : ℚ
  patrimonio_2023 : ℚ
  roe_2024 : ℚ
  roe_2023 : ℚ
  nivel_desempeno : String
  pagina_fuente : Nat
  fecha_extraccion : String
  id : String := "M002"
  nombre : String := "ROE (Return on Equity)"
  cambio_yoy : ℚ := 0
  deriving DecidableEq

/-- `MetricaM002.__post_init__`: `cambio_yoy = roe_2024 - roe_2023`. -/
def MetricaM002.post_init (m : MetricaM002) : MetricaM002 :=
  { m with cambio_yoy := m.roe_2024 - m.roe_2023 }

/-- `@dataclass MetricaM003` of `metrica_m003.py`. -/
structure MetricaM003 where
  cartera_vencida_2024 : ℚ
  cartera_vencida_2023 : ℚ
  cartera_total_2024 : ℚ
  cartera_total_2023 : ℚ
  npl_ratio_2024 : ℚ
  npl_ratio_2023 : ℚ
  calidad_cartera : String
  provision_2024 : ℚ
  provision_2023 : ℚ
  coverage_2024 : ℚ
  coverage_2023 : ℚ
  pagina_fuente : Nat
  fecha_extraccion : String
  id : String := "M003"
  nombre : String := "NPL Ratio"
  cambio_yoy : ℚ := 0
  cambio_absoluto_vencida : ℚ := 0
  deriving DecidableEq

/-- `MetricaM003.__post_init__`: `cambio_yoy = npl_ratio_2024 -
npl_ratio_2023` and `cambio_absoluto_vencida = cartera_vencida_2024 -
cartera_vencida_2023`. -/
def MetricaM003.post_init (m : MetricaM003) : MetricaM003 :=
  { m with
    cambio_yoy := m.npl_ratio_2024 - m.npl_ratio_2023
    cambio_absoluto_vencida := m.cartera_vencida_2024 - m.cartera_vencida_2023 }

/-- `@dataclass MetricaM004` of `metrica_m004.py`. -/
structure MetricaM004 where
  coverage_2024 : ℚ
  coverage_2023 : ℚ
  nivel_cobertura : String
  pagina_fuente : Nat
  fecha_extraccion : String
  id : String := "M004"
  nombre : String := "Coverage Ratio"
  cambio_yoy : ℚ := 0
  deriving DecidableEq

/-- `MetricaM004.__post_init__`: `cambio_yoy = coverage_2024 - coverage_2023`. -/
def MetricaM004.post_init (m : MetricaM004) : MetricaM004 :=
  { m with cambio_yoy := m.coverage_2024 - m.coverage_2023 }

/-- `@dataclass MetricaM005` of `metrica_m005.py`. -/
structure MetricaM005 where
  cartera_a_2024 : ℚ
  cartera_b_2024 : ℚ
  cartera_c_2024 : ℚ
  cartera_d_2024 : ℚ
  cartera_e_2024 : ℚ
  cartera_total_2024 : ℚ
  cartera_a_2023 : ℚ
  cartera_b_2023 : ℚ
  cartera_c_2023 : ℚ
  cartera_d_2023 : ℚ
  cartera_e_2023 : ℚ
  cartera_total_2023 : ℚ
  ratio_riesgosa_2024 : ℚ
  ratio_riesgosa_2023 : ℚ
  nivel_riesgo : String
  pagina_fuente : Nat
  fecha_extraccion : String
  id : String := "M005"
  nombre : String := "Cartera Riesgosa (C+D+E)"
  cambio_yoy : ℚ := 0
  deriving DecidableEq

/-- `MetricaM005.__post_init__`: `cambio_yoy = ratio_riesgosa_2024 -
ratio_riesgosa_2023`. -/
def MetricaM005.post_init (m : MetricaM005) : MetricaM005 :=
  { m with cambio_yoy := m.ratio_riesgosa_2024 - m.ratio_riesgosa_2023 }

/-! ## M003: chained NPL-ratio extraction (`metrica_m003.py`) -/

/-- Modelled from the spec: `calcular_cartera_vencida_desde_cobertura`
is imported from `parsers/extraer_desde_pagina_95.py`, a module that is
not among the sources.  Per the spec (§4.3, §8, glossary), the chained
derivation of the overdue-portfolio amount is
`cartera_vencida = provision / coverage`. -/
def calcular_cartera_vencida_desde_cobertura (provision coverage : ℚ) : ℚ :=
  provision / coverage

/-- Result dictionary of `extraer_tabla_provision` (module
`parsers/extraer_tabla_inteligente.py`, not among the sources).  A `0`
value in a numeric field plays the role of a Python falsy entry for the
`not datos[...]` truthiness checks of the callers. -/
structure DatosProvision where
  provision_2024 : ℚ
  provision_2023 : ℚ
  cartera_2024 : ℚ
  cartera_2023 : ℚ
  pagina_encontrada : Nat
  deriving DecidableEq

/-- Result dictionary of `extraer_cobertura_vencida` (module
`parsers/extraer_desde_pagina_95.py`, not among the sources). -/
structure DatosCobertura where
  cobertura_2024 : ℚ
  cobertura_2023 : ℚ
  pagina_encontrada : Nat
  deriving DecidableEq

/-- `extraer_metrica_m003(ruta_pdf)`, as a function of the two parser
results it reads from the document and of the timestamp string.
`none` covers the two explicit `return None` branches (missing or falsy
parser data) and the `ZeroDivisionError` cases in which the Python
function raises instead of producing a record (`cobertura_2023`,
`cartera_total_2024` or `cartera_total_2023` equal to zero), so that
`some` is returned exactly when the Python call returns a metric. -/
def extraer_metrica_m003 (dp? : Option DatosProvision)
    (dc? : Option DatosCobertura) (fecha : String) : Option MetricaM003 :=
  match dp? with
  | none => none
  | some dp =>
    if dp.provision_2024 = 0 then none
    else
      match dc? with
      | none => none
      | some dc =>
        if dc.cobertura_2024 = 0 then none
        else if dc.cobertura_2023 = 0 then none
        else if dp.cartera_2024 = 0 then none
        else if dp.cartera_2023 = 0 then none
        else
          let cartera_vencida_2024 :=
            calcular_cartera_vencida_desde_cobertura dp.provision_2024 dc.cobertura_2024
          let cartera_vencida_2023 :=
            calcular_cartera_vencida_desde_cobertura dp.provision_2023 dc.cobertura_2023
          let npl_2024 := cartera_vencida_2024 / dp.cartera_2024
          let npl_2023 := cartera_vencida_2023 / dp.cartera_2023
          some (MetricaM003.post_init
            { cartera_vencida_2024 := cartera_vencida_2024
              cartera_vencida_2023 := cartera_vencida_2023
              cartera_total_2024 := dp.cartera_2024
              cartera_total_2023 := dp.cartera_2023
              npl_ratio_2024 := npl_2024
              npl_ratio_2023 := npl_2023
              calidad_cartera := M003.evaluar_calidad_cartera npl_2024
              provision_2024 := dp.provision_2024
              provision_2023 := dp.provision_2023
              coverage_2024 := dc.cobertura_2024
              coverage_2023 := dc.cobertura_2023
              pagina_fuente := dc.pagina_encontrada
              fecha_extraccion := fecha })

/-! ## M002: ROE extraction scan (`metrica_m002.py`, `extraer_metrica_m002`)

The document is modelled as the list of its pages, each page as the list
of the lines of its extracted text (a page without text contributes no
lines).  The mutable `datos` dictionary of the Python loop becomes the
`DatosM002` state threaded through the scan; Python `None` entries are
`none`, and the truthiness tests `not datos[...]` are modelled by
`es_falsy` (`None` and `0.0` are the falsy values a numeric entry can
take).  Early `return metrica` from inside the loop is modelled with a
sum type: `Sum.inr` stops the scan, `Sum.inl` carries the updated state
to the rest of the scan. -/

namespace M002

/-- Python truthiness of an optional float: `not x` holds for `None`
and for `0.0`. -/
def es_falsy (o : Option ℚ) : Bool :=
  match o with
  | none => true
  | some x => x = 0

/-- `str.lower()` restricted to ASCII letters (every lexical cue the
scanner searches for is plain ASCII, so cue matching is unaffected). -/
def minuscula (c : Char) : Char :=
  if 'A' ≤ c ∧ c ≤ 'Z' then Char.ofNat (c.toNat + 32) else c

/-- Whether `sub` is an initial segment of `l`. -/
def empieza_con : List Char → List Char → Bool
  | [], _ => true
  | _ :: _, [] => false
  | a :: as, b :: bs => a = b && empieza_con as bs

/-- Whether `sub` occurs as a contiguous substring of `l`
(the Python `sub in s` test). -/
def contiene_sub (sub : List Char) : List Char → Bool
  | [] => sub.isEmpty
  | c :: cs => empieza_con sub (c :: cs) || contiene_sub sub cs

/-- The `datos` dictionary of `extraer_metrica_m002`, as initialised at
the top of the function. -/
structure DatosM002 where
  utilidad_neta_2024 : Option ℚ := none
  utilidad_neta_2023 : Option ℚ := none
  patrimonio_2024 : Option ℚ := none
  patrimonio_2023 : Option ℚ := none
  pagina_encontrada : Option Nat := none
  deriving DecidableEq

/-- The two cue-matching blocks of the line loop: locate the
`utilidad neta`/`net income` line (excluding lines whose first 20
characters contain `total`) and the `total patrimonio`/`total equity`
line, storing the last two numeric tokens of the first such line as the
2024 and 2023 values (`abs(numeros[-2])`, `abs(numeros[-1])`); the page
number is recorded when the `utilidad neta` line is found. -/
def actualizar_datos (num_pagina : Nat) (linea : List Char) (d : DatosM002) :
    DatosM002 :=
  let lower := linea.map minuscula
  let d1 :=
    if (contiene_sub "utilidad neta".data lower
          || contiene_sub "net income".data lower)
        && !contiene_sub "total".data (lower.take 20) then
      let numeros := extraer_numeros_de_linea linea
      if 2 ≤ numeros.length ∧ es_falsy d.utilidad_neta_2024 then
        { d with
          utilidad_neta_2024 := some |((numeros.getD (numeros.length - 2) 0 : Nat) : ℚ)|
          utilidad_neta_2023 := some |((numeros.getD (numeros.length - 1) 0 : Nat) : ℚ)|
          pagina_encontrada := some num_pagina }
      else d
    else d
  if contiene_sub "total patrimonio".data lower
      || contiene_sub "total equity".data lower then
    let numeros := extraer_numeros_de_linea linea
    if 2 ≤ numeros.length ∧ es_falsy d1.patrimonio_2024 then
      { d1 with
        patrimonio_2024 := some |((numeros.getD (numeros.length - 2) 0 : Nat) : ℚ)|
        patrimonio_2023 := some |((numeros.getD (numeros.length - 1) 0 : Nat) : ℚ)| }
    else d1
  else d1

/-- The record built in the plausible branch of the validation block:
`roe_2024` uses the average equity `(patrimonio_2024 + patrimonio_2023)/2`
while `roe_2023` divides by `patrimonio_2023` alone.  The `getD 0`
defaults stand for dictionary entries that are necessarily set whenever
this branch runs. -/
def construir_metrica (d : DatosM002) (fecha : String) : MetricaM002 :=
  let u24 := d.utilidad_neta_2024.getD 0
  let u23 := d.utilidad_neta_2023.getD 0
  let p24 := d.patrimonio_2024.getD 0
  let p23 := d.patrimonio_2023.getD 0
  let patrimonio_prom_2024 := (p24 + p23) / 2
  let patrimonio_prom_2023 := p23
  let roe_2024 := u24 / patrimonio_prom_2024
  let roe_2023 := u23 / patrimonio_prom_2023
  MetricaM002.post_init
    { utilidad_neta_2024 := u24
      utilidad_neta_2023 := u23
      patrimonio_2024 := p24
      patrimonio_2023 := p23
      roe_2024 := roe_2024
      roe_2023 := roe_2023
      nivel_desempeno := evaluar_desempeno roe_2024
      pagina_fuente := d.pagina_encontrada.getD 0
      fecha_extraccion := fecha }

/-- One iteration of the line loop: update the state from the line's
cues, then, if both 2024 values are truthy, check the preliminary
quotient `utilidad_neta_2024 / patrimonio_2024` against the plausible
range `(-0.10, 0.30)`: inside the range the function builds and returns
the metric (`Sum.inr`); outside it the two 2024 entries are reset to
`None` and the scan continues (`Sum.inl`). -/
def paso_linea (num_pagina : Nat) (linea : List Char) (d : DatosM002)
    (fecha : String) : DatosM002 ⊕ MetricaM002 :=
  let d2 := actualizar_datos num_pagina linea d
  if es_falsy d2.utilidad_neta_2024 || es_falsy d2.patrimonio_2024 then
    .inl d2
  else
    let roe := d2.utilidad_neta_2024.getD 0 / d2.patrimonio_2024.getD 0
    if -0.10 < roe ∧ roe < 0.30 then
      .inr (construir_metrica d2 fecha)
    else
      .inl { d2 with utilidad_neta_2024 := none, patrimonio_2024 := none }

/-- The inner `for linea in lineas` loop of one page. -/
def procesar_lineas (fecha : String) (num_pagina : Nat) :
    List (List Char) → DatosM002 → DatosM002 ⊕ MetricaM002
  | [], d => .inl d
  | l :: ls, d =>
    match paso_linea num_pagina l d fecha with
    | .inl d' => procesar_lineas fecha num_pagina ls d'
    | .inr m => .inr m

/-- The outer `for numero_pagina, pagina in enumerate(pdf.pages, 1)`
loop; exhausting the document yields `none` (the final `return None`). -/
def procesar_paginas (fecha : String) :
    Nat → List (List (List Char)) → DatosM002 → Option MetricaM002
  | _, [], _ => none
  | n, pg :: pgs, d =>
    match procesar_lineas fecha n pg d with
    | .inr m => some m
    | .inl d' => procesar_paginas fecha (n + 1) pgs d'

/-- `extraer_metrica_m002(ruta_pdf)` as a function of the document's
per-page lines and of the timestamp string. -/
def extraer_metrica_m002 (paginas : List (List (List Char)))
    (fecha : String) : Option MetricaM002 :=
  procesar_paginas fecha 1 paginas {}

end M002

/-! ## Orchestrator (`extraer_todas_metricas.py`, `extraer_todas_metricas`)

Each catalogue entry `(metrica_id, funcion_extractora, nombre)` is run
under a `try`/`except`; what matters to the aggregation is only which of
the three things the extractor call did on this document: return a
metric object, return `None`, or raise.  `Resultado` records that
behaviour, so the orchestrator becomes a fold over the catalogue paired
with each extractor's behaviour.  The metric type is a parameter `μ`
(the orchestrator only stores `metrica.to_dict()` without looking
inside). -/

/-- Behaviour of one extractor call inside the `try` block. -/
inductive Resultado (μ : Type) where
  | exito (m : μ)
  | fallo
  | excepcion

/-- The `resultados` aggregate: the `metricas` mapping (as the
association list of its insertions, all with fresh catalogue ids) and
the `validacion` success/failure lists. -/
structure Reporte (μ : Type) where
  metricas : List (String × μ) := []
  metricas_exitosas : List String := []
  metricas_fallidas : List String := []

/-- One iteration of the `for metrica_id, funcion_extractora, nombre`
loop: a truthy metric is stored and its id appended to
`metricas_exitosas`; a falsy return appends the id to
`metricas_fallidas`; the `except Exception` handler also appends the id
to `metricas_fallidas`. -/
def procesar_extractor {μ : Type} (metrica_id : String) (r : Resultado μ)
    (rep : Reporte μ) : Reporte μ :=
  match r with
  | .exito m =>
    { rep with
      metricas := rep.metricas ++ [(metrica_id, m)]
      metricas_exitosas := rep.metricas_exitosas ++ [metrica_id] }
  | .fallo =>
    { rep with metricas_fallidas := rep.metricas_fallidas ++ [metrica_id] }
  | .excepcion =>
    { rep with metricas_fallidas := rep.metricas_fallidas ++ [metrica_id] }

/-- `extraer_todas_metricas`, as a function of each catalogue entry's
behaviour on the document, starting from the empty `resultados`. -/
def extraer_todas_metricas {μ : Type}
    (extractores : List (String × Resultado μ)) : Reporte μ :=
  extractores.foldl (fun rep p => procesar_extractor p.1 p.2 rep) {}

/-- The fixed `extractores` catalogue of `extraer_todas_metricas.py`:
M001, M003, M004, M005 in this order. -/
def catalogo {μ : Type} (o1 o3 o4 o5 : Resultado μ) :
    List (String × Resultado μ) :=
  [("M001", o1), ("M003", o3), ("M004", o4), ("M005", o5)]

/-! ## Coherence validator (`extraer_todas_metricas.py`, `validar_coherencia`)

The validator reads the stored metric dictionaries; its input is
modelled as the four optional metric records (present exactly when the
corresponding id is a key of `resultados['metricas']`).  The `coherencia`
dictionary is modelled with one `Option Bool` per rule name (`none` =
key absent, i.e. the rule was skipped).  Rule 1 divides by
`cartera_vencida_2024`; on a zero divisor the Python function raises
`ZeroDivisionError` (there is no `try` around `validar_coherencia`), so
the embedding returns `none` for the whole call in that case. -/

/-- The `validacion['coherencia']` dictionary. -/
structure Coherencia where
  coverage_coherente : Option Bool := none
  riesgosa_mayor_que_npl : Option Bool := none
  provision_rango_valido : Option Bool := none
  deriving DecidableEq

/-- Rule 1 (coverage consistency): fires only when M001, M003 and M004
are all present; outer `none` models the `ZeroDivisionError` on a zero
`cartera_vencida_2024`, inner `none` the silently skipped rule. -/
def regla_coverage (m001 : Option MetricaM001) (m003 : Option MetricaM003)
    (m004 : Option MetricaM004) : Option (Option Bool) :=
  match m001, m003, m004 with
  | some a, some b, some c =>
    if b.cartera_vencida_2024 = 0 then none
    else
      let coverage_calculado := a.provision_2024 / b.cartera_vencida_2024
      let diferencia := |coverage_calculado - c.coverage_2024|
      some (some (decide (diferencia < 0.01)))
  | _, _, _ => some none

/-- Rule 2 (risky portfolio strictly above NPL): fires only when M003
and M005 are both present. -/
def regla_riesgosa (m003 : Option MetricaM003) (m005 : Option MetricaM005) :
    Option Bool :=
  match m003, m005 with
  | some b, some e => some (decide (e.ratio_riesgosa_2024 > b.npl_ratio_2024))
  | _, _ => none

/-- Rule 3 (provision-to-portfolio ratio in `[0.01, 0.20]`): fires only
when M001 is present. -/
def regla_rango (m001 : Option MetricaM001) : Option Bool :=
  match m001 with
  | some a => some (decide (0.01 ≤ a.ratio_2024 ∧ a.ratio_2024 ≤ 0.20))
  | none => none

/-- `validar_coherencia(resultados)` as a function of the successfully
extracted metric records; `none` models the run aborting with
`ZeroDivisionError` inside rule 1 (in which case rules 2 and 3 are never
reached). -/
def validar_coherencia (m001 : Option MetricaM001) (m003 : Option MetricaM003)
    (m004 : Option MetricaM004) (m005 : Option MetricaM005) :
    Option Coherencia :=
  match regla_coverage m001 m003 m004 with
  | none => none
  | some r1 =>
    some
      { coverage_coherente := r1
        riesgosa_mayor_que_npl := regla_riesgosa m003 m005
        provision_rango_valido := regla_rango m001 }

/-! ## Spec-side comparator and concrete example inputs -/

/-- The token filter exactly as the spec sentence describes it —
"discard any magnitude **below** a fixed noise floor (the reference uses
1000)" — i.e. keeping every parsed magnitude `≥ 1000`.  Stated from the
spec's words only, for comparison with `extraer_numeros_de_linea`. -/
def extraer_numeros_spec (linea : List Char) : List Nat :=
  (M002.numeros_crudos linea).filter (fun n => 1000 ≤ n)

/-- Example output of `extraer_tabla_provision`: provision 1000/900,
portfolio 10000/9000, found on page 3. -/
def dp_ejemplo : DatosProvision :=
  { provision_2024 := 1000, provision_2023 := 900
    cartera_2024 := 10000, cartera_2023 := 9000, pagina_encontrada := 3 }

/-- Example output of `extraer_cobertura_vencida`: coverage 125 % both
years, found on page 95. -/
def dc_ejemplo : DatosCobertura :=
  { cobertura_2024 := 5/4, cobertura_2023 := 5/4, pagina_encontrada := 95 }

/-- The M003 record extracted from `dp_ejemplo`/`dc_ejemplo`:
overdue portfolio `1000 / 1.25 = 800` and `900 / 1.25 = 720`,
NPL ratio `800 / 10000 = 0.08` and `720 / 9000 = 0.08`. -/
def metrica_m003_ejemplo : MetricaM003 :=
  { cartera_vencida_2024 := 800, cartera_vencida_2023 := 720
    cartera_total_2024 := 10000, cartera_total_2023 := 9000
    npl_ratio_2024 := 2/25, npl_ratio_2023 := 2/25
    calidad_cartera := "ALTO"
    provision_2024 := 1000, provision_2023 := 900
    coverage_2024 := 5/4, coverage_2023 := 5/4
    pagina_fuente := 95, fecha_extraccion := "f"
    cambio_yoy := 0, cambio_absoluto_vencida := 80 }

/-- Example M001 record (ratio 10 %). -/
def m001_ejemplo : MetricaM001 :=
  { provision_2024 := 1000, provision_2023 := 900
    cartera_2024 := 10000, cartera_2023 := 9000
    ratio_2024 := 1/10, ratio_2023 := 1/10
    nivel_riesgo := "CRÍTICO", pagina_fuente := 3, fecha_extraccion := "f" }

/-- Example M004 record (coverage 125 %). -/
def m004_ejemplo : MetricaM004 :=
  { coverage_2024 := 5/4, coverage_2023 := 5/4
    nivel_cobertura := "ADECUADO", pagina_fuente := 95, fecha_extraccion := "f" }

/-- Example M005 record (risky share 10 % both years). -/
def m005_ejemplo : MetricaM005 :=
  { cartera_a_2024 := 7000, cartera_b_2024 := 2000, cartera_c_2024 := 500
    cartera_d_2024 := 300, cartera_e_2024 := 200, cartera_total_2024 := 10000
    cartera_a_2023 := 6300, cartera_b_2023 := 1800, cartera_c_2023 := 450
    cartera_d_2023 := 270, cartera_e_2023 := 180, cartera_total_2023 := 9000
    ratio_riesgosa_2024 := 1/10, ratio_riesgosa_2023 := 1/10
    nivel_riesgo := "ALTO", pagina_fuente := 7, fecha_extraccion := "f" }

/-- The coherence record the validator produces on the example metrics:
`|1000/800 - 1.25| = 0 < 0.01`, `0.10 > 0.08`, `0.01 ≤ 0.10 ≤ 0.20`. -/
def coherencia_ejemplo : Coherencia :=
  { coverage_coherente := some true
    riesgosa_mayor_que_npl := some true
    provision_rango_valido := some true }

/-- Example one-page document for the M002 scan: a net-income line and a
total-equity line whose preliminary quotient `290000 / 1000000 = 0.29`
is plausible, while the stored average-equity ROE `290000 / 550000`
is above `0.30`. -/
def doc_ejemplo : List (List (List Char)) :=
  [["utilidad neta 290,000 250,000".data,
    "total patrimonio 1,000,000 100,000".data]]

/-- The metric record the M002 scan returns on `doc_ejemplo`. -/
def metrica_m002_ejemplo : MetricaM002 :=
  { utilidad_neta_2024 := 290000, utilidad_neta_2023 := 250000
    patrimonio_2024 := 1000000, patrimonio_2023 := 100000
    roe_2024 := 29/55, roe_2023 := 5/2
    nivel_desempeno := "EXCELENTE", pagina_fuente := 1, fecha_extraccion := "f"
    cambio_yoy := -217/110 }

/-! ## Helper lemmas -/

/-- Applying the noise floor inside the token loop is the same as
filtering the fully parsed magnitude list. -/
theorem filterMap_piso (ts : List (List Char)) :
    (ts.filterMap fun t =>
      match M002.valor_token t with
      | none => none
      | some n => if 1000 < n then some n else none)
      = (ts.filterMap M002.valor_token).filter (fun n => 1000 < n) := by
  induction ts with
  | nil => rfl
  | cons t ts ih =>
    cases h : M002.valor_token t with
    | none => simp [List.filterMap_cons, h, ih]
    | some n =>
      by_cases hn : 1000 < n <;>
        simp [List.filterMap_cons, h, ih, hn]

/-- The chained M003 extraction on the example parser data. -/
theorem extraccion_m003_ejemplo :
    extraer_metrica_m003 (some dp_ejemplo) (some dc_ejemplo) "f"
      = some metrica_m003_ejemplo := by
  norm_num [extraer_metrica_m003, dp_ejemplo, dc_ejemplo, metrica_m003_ejemplo,
    MetricaM003.post_init, M003.evaluar_calidad_cartera,
    calcular_cartera_vencida_desde_cobertura]

/-! ## Claims -/

/-- C1 (counterexample): the claim asserts non-negativity of
`calcular_cartera_vencida` for **every** pair with `coverage > 0`, but at
`(provision, coverage) = (-1, 1)` the derived amount is `-1 < 0`. -/
theorem c1_cartera_vencida_contraejemplo :
    (0 : ℚ) < 1
      ∧ calcular_cartera_vencida_desde_cobertura (-1) 1 = -1
      ∧ ¬ 0 ≤ calcular_cartera_vencida_desde_cobertura (-1) 1 := by
  norm_num [calcular_cartera_vencida_desde_cobertura]

/-- C1 (amended): for every pair with `provision ≥ 0` and `coverage > 0`,
the chained derivation satisfies `cartera_vencida = provision / coverage`
and is non-negative; and whenever `extraer_metrica_m003` succeeds, each
period's `npl_ratio` is the so-derived `cartera_vencida` divided by that
period's `cartera_total`. -/
theorem c1_cartera_vencida_enmendada :
    (∀ provision coverage : ℚ, 0 ≤ provision → 0 < coverage →
      calcular_cartera_vencida_desde_cobertura provision coverage
          = provision / coverage
        ∧ 0 ≤ calcular_cartera_vencida_desde_cobertura provision coverage)
    ∧ (∀ dp? dc? fecha m, extraer_metrica_m003 dp? dc? fecha = some m →
        m.npl_ratio_2024 = m.cartera_vencida_2024 / m.cartera_total_2024
          ∧ m.npl_ratio_2023 = m.cartera_vencida_2023 / m.cartera_total_2023
          ∧ m.cartera_vencida_2024
              = calcular_cartera_vencida_desde_cobertura m.provision_2024 m.coverage_2024
          ∧ m.cartera_vencida_2023
              = calcular_cartera_vencida_desde_cobertura m.provision_2023 m.coverage_2023) := by
  constructor
  · intro provision coverage hp hc
    exact ⟨rfl, div_nonneg hp hc.le⟩
  · intro dp? dc? fecha m h
    cases dp? with
    | none => simp [extraer_metrica_m003] at h
    | some dp =>
      cases dc? with
      | none =>
        simp only [extraer_metrica_m003] at h
        split_ifs at h
      | some dc =>
        simp only [extraer_metrica_m003] at h
        split_ifs at h
        injection h with h
        subst h
        exact ⟨rfl, rfl, rfl, rfl⟩

/-- C1 (witness): the amended claim applied to `provision = 1000`,
`coverage = 1.25` and to the example extraction. -/
theorem c1_cartera_vencida_testigo :
    (calcular_cartera_vencida_desde_cobertura 1000 (5/4) = 1000 / (5/4)
      ∧ 0 ≤ calcular_cartera_vencida_desde_cobertura 1000 (5/4))
    ∧ (metrica_m003_ejemplo.npl_ratio_2024
          = metrica_m003_ejemplo.cartera_vencida_2024 / metrica_m003_ejemplo.cartera_total_2024
        ∧ metrica_m003_ejemplo.npl_ratio_2023
            = metrica_m003_ejemplo.cartera_vencida_2023 / metrica_m003_ejemplo.cartera_total_2023
        ∧ metrica_m003_ejemplo.cartera_vencida_2024
            = calcular_cartera_vencida_desde_cobertura metrica_m003_ejemplo.provision_2024
                metrica_m003_ejemplo.coverage_2024
        ∧ metrica_m003_ejemplo.cartera_vencida_2023
            = calcular_cartera_vencida_desde_cobertura metrica_m003_ejemplo.provision_2023
                metrica_m003_ejemplo.coverage_2023) :=
  ⟨c1_cartera_vencida_enmendada.1 1000 (5/4) (by norm_num) (by norm_num),
    c1_cartera_vencida_enmendada.2 (some dp_ejemplo) (some dc_ejemplo) "f"
      metrica_m003_ejemplo extraccion_m003_ejemplo⟩

/-- C2: every classifier is total with disjoint, gap-free bands — each
label is returned exactly on its band, the four/five bands of each
classifier partition `(-∞, +∞)` — and for M001 the boundary ratio `0.04`
classifies as `MEDIO` (the lower band's upper bound is a strict
less-than). -/
theorem c2_clasificadores_totales (r : ℚ) :
    ((M001.evaluar_nivel_riesgo r = "BAJO" ↔ r < 0.04)
      ∧ (M001.evaluar_nivel_riesgo r = "MEDIO" ↔ 0.04 ≤ r ∧ r < 0.07)
      ∧ (M001.evaluar_nivel_riesgo r = "ALTO" ↔ 0.07 ≤ r ∧ r < 0.10)
      ∧ (M001.evaluar_nivel_riesgo r = "CRÍTICO" ↔ 0.10 ≤ r))
    ∧ ((M002.evaluar_desempeno r = "BAJO" ↔ r < 0.05)
      ∧ (M002.evaluar_desempeno r = "MEDIO" ↔ 0.05 ≤ r ∧ r < 0.10)
      ∧ (M002.evaluar_desempeno r = "ALTO" ↔ 0.10 ≤ r ∧ r < 0.15)
      ∧ (M002.evaluar_desempeno r = "EXCELENTE" ↔ 0.15 ≤ r))
    ∧ ((M003.evaluar_calidad_cartera r = "EXCELENTE" ↔ r < 0.03)
      ∧ (M003.evaluar_calidad_cartera r = "BUENO" ↔ 0.03 ≤ r ∧ r < 0.05)
      ∧ (M003.evaluar_calidad_cartera r = "ACEPTABLE" ↔ 0.05 ≤ r ∧ r < 0.08)
      ∧ (M003.evaluar_calidad_cartera r = "ALTO" ↔ 0.08 ≤ r ∧ r < 0.12)
      ∧ (M003.evaluar_calidad_cartera r = "CRÍTICO" ↔ 0.12 ≤ r))
    ∧ ((M004.evaluar_nivel_cobertura r = "CONSERVADOR" ↔ 1.50 < r)
      ∧ (M004.evaluar_nivel_cobertura r = "ADECUADO" ↔ 1.00 ≤ r ∧ r ≤ 1.50)
      ∧ (M004.evaluar_nivel_cobertura r = "LÍMITE" ↔ 0.80 ≤ r ∧ r < 1.00)
      ∧ (M004.evaluar_nivel_cobertura r = "INSUFICIENTE" ↔ r < 0.80))
    ∧ ((M005.evaluar_nivel_riesgo r = "EXCELENTE" ↔ r < 0.03)
      ∧ (M005.evaluar_nivel_riesgo r = "BUENO" ↔ 0.03 ≤ r ∧ r < 0.05)
      ∧ (M005.evaluar_nivel_riesgo r = "ACEPTABLE" ↔ 0.05 ≤ r ∧ r < 0.08)
      ∧ (M005.evaluar_nivel_riesgo r = "ALTO" ↔ 0.08 ≤ r ∧ r < 0.12)
      ∧ (M005.evaluar_nivel_riesgo r = "CRÍTICO" ↔ 0.12 ≤ r))
    ∧ M001.evaluar_nivel_riesgo 0.04 = "MEDIO" := by
  refine ⟨?_, ?_, ?_, ?_, ?_, ?_⟩
  · unfold M001.evaluar_nivel_riesgo
    split_ifs with h1 h2 h3 <;>
      refine ⟨?_, ?_, ?_, ?_⟩ <;> simp_all <;> intros <;> linarith
  · unfold M002.evaluar_desempeno
    split_ifs with h1 h2 h3 <;>
      refine ⟨?_, ?_, ?_, ?_⟩ <;> simp_all <;> intros <;> linarith
  · unfold M003.evaluar_calidad_cartera
    split_ifs with h1 h2 h3 h4 <;>
      refine ⟨?_, ?_, ?_, ?_, ?_⟩ <;> simp_all <;> intros <;> linarith
  · unfold M004.evaluar_nivel_cobertura
    split_ifs with h1 h2 h3 <;>
      refine ⟨?_, ?_, ?_, ?_⟩ <;> simp_all <;> intros <;> linarith
  · unfold M005.evaluar_nivel_riesgo
    split_ifs with h1 h2 h3 h4 <;>
      refine ⟨?_, ?_, ?_, ?_, ?_⟩ <;> simp_all <;> intros <;> linarith
  · norm_num [M001.evaluar_nivel_riesgo]

/-- C5 (counterexample): the claim says magnitudes **below** 1000 are
discarded, so the token `1,000` (magnitude exactly 1000, not below the
floor) should be returned; the code's strict `numero > 1000` comparison
discards it.  `extraer_numeros_spec` is the filter exactly as the claim
words it. -/
theorem c5_extraccion_numerica_contraejemplo :
    M002.extraer_numeros_de_linea "Saldo 1,000".data = []
      ∧ extraer_numeros_spec "Saldo 1,000".data = [1000] := by
  constructor <;> decide

/-- C5 (amended): `extraer_numeros_de_linea` returns the magnitudes of
the digit-and-comma substrings (optionally parenthesized) in
left-to-right order, separators stripped, unparseable tokens skipped,
discarding any magnitude **at or below** the noise floor of 1000; in
particular `"Utilidad neta (1,234,567) 987,654"` yields
`[1234567, 987654]` in that order and `"page 3 of 45"` yields the empty
sequence. -/
theorem c5_extraccion_numerica_enmendada :
    (∀ linea, M002.extraer_numeros_de_linea linea
        = (M002.numeros_crudos linea).filter (fun n => 1000 < n))
    ∧ M002.extraer_numeros_de_linea "Utilidad neta (1,234,567) 987,654".data
        = [1234567, 987654]
    ∧ M002.extraer_numeros_de_linea "page 3 of 45".data = [] :=
  ⟨fun linea => filterMap_piso (M002.tokens_numericos linea), by decide, by decide⟩

/-- C8: for every record the four metric dataclasses build, the stored
year-over-year change set at construction equals the current-period
primary ratio minus the prior-period primary ratio. -/
theorem c8_cambio_yoy (a : MetricaM001) (b : MetricaM003) (c : MetricaM004)
    (d : MetricaM005) :
    a.post_init.cambio_yoy = a.ratio_2024 - a.ratio_2023
      ∧ b.post_init.cambio_yoy = b.npl_ratio_2024 - b.npl_ratio_2023
      ∧ c.post_init.cambio_yoy = c.coverage_2024 - c.coverage_2023
      ∧ d.post_init.cambio_yoy = d.ratio_riesgosa_2024 - d.ratio_riesgosa_2023 :=
  ⟨rfl, rfl, rfl, rfl⟩

/-! ### Orchestrator characterization -/

/-- Ids of the catalogue entries whose extractor produced a metric. -/
def ids_exitosos {μ : Type} (l : List (String × Resultado μ)) : List String :=
  l.filterMap fun p =>
    match p.2 with
    | .exito _ => some p.1
    | _ => none

/-- Ids of the catalogue entries whose extractor returned a falsy value
or raised. -/
def ids_fallidos {μ : Type} (l : List (String × Resultado μ)) : List String :=
  l.filterMap fun p =>
    match p.2 with
    | .exito _ => none
    | _ => some p.1

/-- The id-to-metric insertions of the successful entries, in order. -/
def pares_exitosos {μ : Type} (l : List (String × Resultado μ)) :
    List (String × μ) :=
  l.filterMap fun p =>
    match p.2 with
    | .exito m => some (p.1, m)
    | _ => none

/-- The orchestrator fold, started from any aggregate, appends exactly
the successful pairs, the successful ids and the failed ids. -/
theorem foldl_procesar {μ : Type} (l : List (String × Resultado μ))
    (rep : Reporte μ) :
    l.foldl (fun rep p => procesar_extractor p.1 p.2 rep) rep
      = { metricas := rep.metricas ++ pares_exitosos l
          metricas_exitosas := rep.metricas_exitosas ++ ids_exitosos l
          metricas_fallidas := rep.metricas_fallidas ++ ids_fallidos l } := by
  induction l generalizing rep with
  | nil => simp [pares_exitosos, ids_exitosos, ids_fallidos]
  | cons p ps ih =>
    obtain ⟨i, r⟩ := p
    rw [List.foldl_cons, ih]
    cases r <;>
      simp [procesar_extractor, pares_exitosos, ids_exitosos, ids_fallidos,
        List.filterMap_cons]

/-- `extraer_todas_metricas` in closed form. -/
theorem extraer_todas_metricas_eq {μ : Type} (l : List (String × Resultado μ)) :
    extraer_todas_metricas l
      = { metricas := pares_exitosos l
          metricas_exitosas := ids_exitosos l
          metricas_fallidas := ids_fallidos l } := by
  simpa [extraer_todas_metricas] using foldl_procesar l {}

/-- C3: if any catalogue entry's extractor raises, the orchestrator
still produces its report: the raising metric's id is recorded under
`metricas_fallidas`, and every entry that succeeded keeps its id in
`metricas_exitosas` with its metric stored unchanged in the `metricas`
mapping. -/
theorem c3_resiliencia_orquestador {μ : Type}
    (extractores : List (String × Resultado μ)) (i : String)
    (hi : (i, Resultado.excepcion (μ := μ)) ∈ extractores) :
    i ∈ (extraer_todas_metricas extractores).metricas_fallidas
      ∧ ∀ j m, (j, Resultado.exito m) ∈ extractores →
          j ∈ (extraer_todas_metricas extractores).metricas_exitosas
            ∧ (j, m) ∈ (extraer_todas_metricas extractores).metricas := by
  rw [extraer_todas_metricas_eq]
  refine ⟨?_, ?_⟩
  · exact List.mem_filterMap.mpr ⟨(i, Resultado.excepcion), hi, rfl⟩
  · intro j m hj
    exact ⟨List.mem_filterMap.mpr ⟨(j, Resultado.exito m), hj, rfl⟩,
      List.mem_filterMap.mpr ⟨(j, Resultado.exito m), hj, rfl⟩⟩

/-- C3 (witness): the claim applied to the concrete catalogue in which
M003 raises and the others succeed. -/
theorem c3_resiliencia_orquestador_testigo :
    "M003" ∈ (extraer_todas_metricas
        (catalogo (Resultado.exito 1) Resultado.excepcion
          (Resultado.exito 4) (Resultado.exito 5))).metricas_fallidas
      ∧ ∀ j m, (j, Resultado.exito m) ∈ catalogo (μ := Nat) (Resultado.exito 1)
            Resultado.excepcion (Resultado.exito 4) (Resultado.exito 5) →
          j ∈ (extraer_todas_metricas (catalogo (Resultado.exito 1)
              Resultado.excepcion (Resultado.exito 4) (Resultado.exito 5))).metricas_exitosas
            ∧ (j, m) ∈ (extraer_todas_metricas (catalogo (Resultado.exito 1)
                Resultado.excepcion (Resultado.exito 4) (Resultado.exito 5))).metricas :=
  c3_resiliencia_orquestador
    (catalogo (Resultado.exito 1) Resultado.excepcion
      (Resultado.exito 4) (Resultado.exito 5))
    "M003" (by simp [catalogo])

/-- C9: after any run over the fixed catalogue (M001, M003, M004, M005),
every catalogue id lands in exactly one of `metricas_exitosas` and
`metricas_fallidas`, and the key list of the `metricas` mapping is
exactly `metricas_exitosas`. -/
theorem c9_particion_reporte {μ : Type} (o1 o3 o4 o5 : Resultado μ) :
    (∀ i ∈ ["M001", "M003", "M004", "M005"],
        (i ∈ (extraer_todas_metricas (catalogo o1 o3 o4 o5)).metricas_exitosas
            ∧ i ∉ (extraer_todas_metricas (catalogo o1 o3 o4 o5)).metricas_fallidas)
          ∨ (i ∈ (extraer_todas_metricas (catalogo o1 o3 o4 o5)).metricas_fallidas
            ∧ i ∉ (extraer_todas_metricas (catalogo o1 o3 o4 o5)).metricas_exitosas))
      ∧ (extraer_todas_metricas (catalogo o1 o3 o4 o5)).metricas.map Prod.fst
          = (extraer_todas_metricas (catalogo o1 o3 o4 o5)).metricas_exitosas := by
  rw [extraer_todas_metricas_eq]
  cases o1 <;> cases o3 <;> cases o4 <;> cases o5 <;>
    simp [catalogo, pares_exitosos, ids_exitosos, ids_fallidos, List.filterMap_cons]

/-- C9 (witness): the partition at a concrete mixed run (M001 and M004
succeed, M003 fails, M005 raises), applied at id M001. -/
theorem c9_particion_reporte_testigo :
    ("M001" ∈ (extraer_todas_metricas (catalogo (Resultado.exito 1)
          Resultado.fallo (Resultado.exito 4) Resultado.excepcion)).metricas_exitosas
        ∧ "M001" ∉ (extraer_todas_metricas (catalogo (μ := Nat) (Resultado.exito 1)
            Resultado.fallo (Resultado.exito 4) Resultado.excepcion)).metricas_fallidas)
      ∨ ("M001" ∈ (extraer_todas_metricas (catalogo (Resultado.exito 1)
            Resultado.fallo (Resultado.exito 4) Resultado.excepcion)).metricas_fallidas
        ∧ "M001" ∉ (extraer_todas_metricas (catalogo (μ := Nat) (Resultado.exito 1)
            Resultado.fallo (Resultado.exito 4) Resultado.excepcion)).metricas_exitosas) :=
  (c9_particion_reporte (Resultado.exito 1) Resultado.fallo
      (Resultado.exito 4) Resultado.excepcion).1 "M001" (by simp)

/-! ### Validator lemmas -/

/-- A successful M003 extraction never stores a zero overdue amount:
`provision_2024` passed the truthiness check and `cobertura_2024` is
nonzero, so their quotient is nonzero.  (This is what protects rule 1 of
`validar_coherencia` from `ZeroDivisionError` on reachable inputs.) -/
theorem cartera_vencida_no_nula (dp? : Option DatosProvision)
    (dc? : Option DatosCobertura) (fecha : String) (m : MetricaM003)
    (h : extraer_metrica_m003 dp? dc? fecha = some m) :
    m.cartera_vencida_2024 ≠ 0 := by
  cases dp? with
  | none => simp [extraer_metrica_m003] at h
  | some dp =>
    cases dc? with
    | none =>
      simp only [extraer_metrica_m003] at h
      split_ifs at h
    | some dc =>
      simp only [extraer_metrica_m003] at h
      split_ifs at h with h1 h2
      injection h with h
      subst h
      exact div_ne_zero h1 h2

/-- Rule 2 fires exactly when M003 and M005 are both present. -/
theorem regla_riesgosa_presente (m3 : Option MetricaM003)
    (m5 : Option MetricaM005) :
    (regla_riesgosa m3 m5).isSome ↔ (m3.isSome ∧ m5.isSome) := by
  cases m3 <;> cases m5 <;> simp [regla_riesgosa]

/-- Rule 3 fires exactly when M001 is present. -/
theorem regla_rango_presente (m1 : Option MetricaM001) :
    (regla_rango m1).isSome ↔ m1.isSome := by
  cases m1 <;> simp [regla_rango]

/-- Rule 1 does not raise when any present M003 has a nonzero overdue
amount, and its outcome is recorded exactly when M001, M003 and M004 are
all present. -/
theorem regla_coverage_presente (m1 : Option MetricaM001)
    (m3 : Option MetricaM003) (m4 : Option MetricaM004)
    (hb : ∀ b, m3 = some b → b.cartera_vencida_2024 ≠ 0) :
    ∃ r1, regla_coverage m1 m3 m4 = some r1
      ∧ (r1.isSome ↔ (m1.isSome ∧ m3.isSome ∧ m4.isSome)) := by
  rcases m1 with _ | a <;> rcases m3 with _ | b <;> rcases m4 with _ | d
  · exact ⟨none, by simp [regla_coverage]⟩
  · exact ⟨none, by simp [regla_coverage]⟩
  · exact ⟨none, by simp [regla_coverage]⟩
  · exact ⟨none, by simp [regla_coverage]⟩
  · exact ⟨none, by simp [regla_coverage]⟩
  · exact ⟨none, by simp [regla_coverage]⟩
  · exact ⟨none, by simp [regla_coverage]⟩
  · refine ⟨some (decide
      (|a.provision_2024 / b.cartera_vencida_2024 - d.coverage_2024| < 0.01)),
      ?_, by simp⟩
    simp [regla_coverage, hb b rfl]

/-- C4: on every set of successfully computed metrics (in particular,
any present M003 record actually produced by `extraer_metrica_m003`),
`validar_coherencia` returns its rule outcomes as data without raising;
each rule's outcome is recorded exactly when that rule's required
metrics are present, and each recorded outcome is a function of that
rule's own required metrics only, so no rule's failure can block the
others. -/
theorem c4_coherencia_no_fatal (m1 : Option MetricaM001)
    (m3 : Option MetricaM003) (m4 : Option MetricaM004)
    (m5 : Option MetricaM005)
    (h3 : ∀ b, m3 = some b →
      ∃ dp? dc? fecha, extraer_metrica_m003 dp? dc? fecha = some b) :
    ∃ c, validar_coherencia m1 m3 m4 m5 = some c
      ∧ (c.coverage_coherente.isSome ↔ (m1.isSome ∧ m3.isSome ∧ m4.isSome))
      ∧ (c.riesgosa_mayor_que_npl.isSome ↔ (m3.isSome ∧ m5.isSome))
      ∧ (c.provision_rango_valido.isSome ↔ m1.isSome)
      ∧ c.riesgosa_mayor_que_npl = regla_riesgosa m3 m5
      ∧ c.provision_rango_valido = regla_rango m1 := by
  have hb : ∀ b, m3 = some b → b.cartera_vencida_2024 ≠ 0 := by
    intro b h
    obtain ⟨dp?, dc?, fecha, hx⟩ := h3 b h
    exact cartera_vencida_no_nula dp? dc? fecha b hx
  obtain ⟨r1, hr1, hiff⟩ := regla_coverage_presente m1 m3 m4 hb
  refine ⟨⟨r1, regla_riesgosa m3 m5, regla_rango m1⟩, ?_, hiff,
    regla_riesgosa_presente m3 m5, regla_rango_presente m1, rfl, rfl⟩
  simp [validar_coherencia, hr1]

/-- C4 (witness): the validator on the four example records (the M003
one coming from the example extraction) returns all three rule outcomes
as data. -/
theorem c4_coherencia_no_fatal_testigo :
    ∃ c, validar_coherencia (some m001_ejemplo) (some metrica_m003_ejemplo)
        (some m004_ejemplo) (some m005_ejemplo) = some c
      ∧ c.coverage_coherente.isSome
      ∧ c.riesgosa_mayor_que_npl.isSome
      ∧ c.provision_rango_valido.isSome := by
  obtain ⟨c, hc, h1, h2, h3, -, -⟩ :=
    c4_coherencia_no_fatal (some m001_ejemplo) (some metrica_m003_ejemplo)
      (some m004_ejemplo) (some m005_ejemplo)
      (fun b hb => ⟨some dp_ejemplo, some dc_ejemplo, "f",
        Option.some.inj hb ▸ extraccion_m003_ejemplo⟩)
  exact ⟨c, hc, by simp [h1], by simp [h2], by simp [h3]⟩

/-- The validator on the four example records: every rule passes
(`|1000/800 - 1.25| = 0 < 0.01`, `0.10 > 0.08`, `0.01 ≤ 0.10 ≤ 0.20`). -/
theorem validacion_ejemplo :
    validar_coherencia (some m001_ejemplo) (some metrica_m003_ejemplo)
        (some m004_ejemplo) (some m005_ejemplo) = some coherencia_ejemplo := by
  norm_num [validar_coherencia, regla_coverage, regla_riesgosa, regla_rango,
    m001_ejemplo, metrica_m003_ejemplo, m004_ejemplo, m005_ejemplo,
    coherencia_ejemplo]

/-- C6: whenever the validator runs to completion, the coverage rule's
outcome is recorded exactly when M001, M003 and M004 are all present
(otherwise the rule is skipped silently), and its recorded value is
`true` iff `|provision_2024 / cartera_vencida_2024 - coverage_2024| <
0.01`. -/
theorem c6_regla_cobertura (m1 : Option MetricaM001)
    (m3 : Option MetricaM003) (m4 : Option MetricaM004)
    (m5 : Option MetricaM005) (c : Coherencia)
    (h : validar_coherencia m1 m3 m4 m5 = some c) :
    (c.coverage_coherente.isSome ↔ (m1.isSome ∧ m3.isSome ∧ m4.isSome))
      ∧ ∀ a b d, m1 = some a → m3 = some b → m4 = some d →
          (c.coverage_coherente = some true
            ↔ |a.provision_2024 / b.cartera_vencida_2024 - d.coverage_2024|
                < 0.01) := by
  rcases m1 with _ | a <;> rcases m3 with _ | b <;> rcases m4 with _ | d <;>
    simp only [validar_coherencia, regla_coverage] at h
  · injection h with h; subst h
    exact ⟨by simp, by intro a' b' d' ha hb hd; simp_all⟩
  · injection h with h; subst h
    exact ⟨by simp, by intro a' b' d' ha hb hd; simp_all⟩
  · injection h with h; subst h
    exact ⟨by simp, by intro a' b' d' ha hb hd; simp_all⟩
  · injection h with h; subst h
    exact ⟨by simp, by intro a' b' d' ha hb hd; simp_all⟩
  · injection h with h; subst h
    exact ⟨by simp, by intro a' b' d' ha hb hd; simp_all⟩
  · injection h with h; subst h
    exact ⟨by simp, by intro a' b' d' ha hb hd; simp_all⟩
  · injection h with h; subst h
    exact ⟨by simp, by intro a' b' d' ha hb hd; simp_all⟩
  · split_ifs at h with hcv
    injection h with h
    subst h
    refine ⟨by simp, ?_⟩
    intro a' b' d' ha hb hd
    obtain rfl : a = a' := Option.some.inj ha
    obtain rfl : b = b' := Option.some.inj hb
    obtain rfl : d = d' := Option.some.inj hd
    simp [decide_eq_true_eq]

/-- C6 (witness): the rule on the example records is recorded and passes,
and the measured discrepancy is below the tolerance. -/
theorem c6_regla_cobertura_testigo :
    coherencia_ejemplo.coverage_coherente = some true
      ∧ |m001_ejemplo.provision_2024 / metrica_m003_ejemplo.cartera_vencida_2024
            - m004_ejemplo.coverage_2024| < 0.01 := by
  have h := c6_regla_cobertura (some m001_ejemplo) (some metrica_m003_ejemplo)
    (some m004_ejemplo) (some m005_ejemplo) coherencia_ejemplo validacion_ejemplo
  have h2 := h.2 m001_ejemplo metrica_m003_ejemplo m004_ejemplo rfl rfl rfl
  refine ⟨h2.mpr ?_, h2.mp ?_⟩
  · norm_num [m001_ejemplo, metrica_m003_ejemplo, m004_ejemplo]
  · norm_num [coherencia_ejemplo]

/-! ### M002 scan lemmas -/

/-- A line step only ever returns a metric built by `construir_metrica`
from a state whose preliminary quotient passed the plausible range. -/
theorem paso_linea_inr (n : Nat) (l : List Char) (d : M002.DatosM002)
    (f : String) (m : MetricaM002)
    (h : M002.paso_linea n l d f = .inr m) :
    ∃ d2, m = M002.construir_metrica d2 f
      ∧ -0.10 < d2.utilidad_neta_2024.getD 0 / d2.patrimonio_2024.getD 0
      ∧ d2.utilidad_neta_2024.getD 0 / d2.patrimonio_2024.getD 0 < 0.30 := by
  simp only [M002.paso_linea] at h
  split_ifs at h with h1 h2
  injection h with h
  exact ⟨_, h.symm, h2.1, h2.2⟩

/-- Lifting `paso_linea_inr` through a page's line loop. -/
theorem procesar_lineas_inr (f : String) (n : Nat)
    (ls : List (List Char)) (d : M002.DatosM002) (m : MetricaM002)
    (h : M002.procesar_lineas f n ls d = .inr m) :
    ∃ d2, m = M002.construir_metrica d2 f
      ∧ -0.10 < d2.utilidad_neta_2024.getD 0 / d2.patrimonio_2024.getD 0
      ∧ d2.utilidad_neta_2024.getD 0 / d2.patrimonio_2024.getD 0 < 0.30 := by
  induction ls generalizing d with
  | nil => simp [M002.procesar_lineas] at h
  | cons l ls ih =>
    simp only [M002.procesar_lineas] at h
    rcases hp : M002.paso_linea n l d f with d' | m'
    · rw [hp] at h
      exact ih d' h
    · rw [hp] at h
      injection h with h
      exact h ▸ paso_linea_inr n l d f m' hp

/-- Lifting through the page loop. -/
theorem procesar_paginas_some (f : String) (pgs : List (List (List Char))) :
    ∀ (n : Nat) (d : M002.DatosM002) (m : MetricaM002),
      M002.procesar_paginas f n pgs d = some m →
      ∃ d2, m = M002.construir_metrica d2 f
        ∧ -0.10 < d2.utilidad_neta_2024.getD 0 / d2.patrimonio_2024.getD 0
        ∧ d2.utilidad_neta_2024.getD 0 / d2.patrimonio_2024.getD 0 < 0.30 := by
  induction pgs with
  | nil => intro n d m h; simp [M002.procesar_paginas] at h
  | cons pg pgs ih =>
    intro n d m h
    simp only [M002.procesar_paginas] at h
    rcases hr : M002.procesar_lineas f n pg d with d' | m'
    · rw [hr] at h
      exact ih (n + 1) d' m h
    · rw [hr] at h
      exact Option.some.inj h ▸ procesar_lineas_inr f n pg d m' hr

/-- Every metric the M002 scan returns was built by `construir_metrica`
from a state whose preliminary quotient was plausible. -/
theorem extraer_m002_some (paginas : List (List (List Char))) (f : String)
    (m : MetricaM002) (h : M002.extraer_metrica_m002 paginas f = some m) :
    ∃ d2, m = M002.construir_metrica d2 f
      ∧ -0.10 < d2.utilidad_neta_2024.getD 0 / d2.patrimonio_2024.getD 0
      ∧ d2.utilidad_neta_2024.getD 0 / d2.patrimonio_2024.getD 0 < 0.30 :=
  procesar_paginas_some f paginas 1 {} m h

/-- The scan on the concrete example document: the net-income line, then
the total-equity line, preliminary quotient `0.29`, returned metric with
average-equity ROE `29/55`. -/
theorem escaneo_ejemplo :
    M002.extraer_metrica_m002 doc_ejemplo "f" = some metrica_m002_ejemplo := by
  have hB : M002.paso_linea 1 "utilidad neta 290,000 250,000".data {} "f"
      = .inl { utilidad_neta_2024 := some 290000, utilidad_neta_2023 := some 250000,
               pagina_encontrada := some 1 } := by decide
  have hA2 : M002.actualizar_datos 1 "total patrimonio 1,000,000 100,000".data
      { utilidad_neta_2024 := some 290000, utilidad_neta_2023 := some 250000,
        pagina_encontrada := some 1 }
      = { utilidad_neta_2024 := some 290000, utilidad_neta_2023 := some 250000,
          patrimonio_2024 := some 1000000, patrimonio_2023 := some 100000,
          pagina_encontrada := some 1 } := by decide
  have hC : M002.paso_linea 1 "total patrimonio 1,000,000 100,000".data
      { utilidad_neta_2024 := some 290000, utilidad_neta_2023 := some 250000,
        pagina_encontrada := some 1 } "f"
      = .inr metrica_m002_ejemplo := by
    simp only [M002.paso_linea, hA2]
    norm_num [M002.es_falsy, M002.construir_metrica, MetricaM002.post_init,
      M002.evaluar_desempeno, metrica_m002_ejemplo]
  simp only [M002.extraer_metrica_m002, doc_ejemplo, M002.procesar_paginas,
    M002.procesar_lineas, hB, hC]

/-- C7: when a matched line's values fail the plausibility check (the
preliminary quotient outside `(-10 %, 30 %)`), the scan discards the
match — both 2024 entries reset to `None` — and continues with the
remaining lines; an `inl` page outcome continues with the following
pages; any returned metric passed the plausibility check; and an
exhausted document yields `None`, never an exception. -/
theorem c7_descarte_continuacion :
    (∀ (f : String) (n : Nat) (linea : List Char) (d : M002.DatosM002) (u p : ℚ),
      (M002.actualizar_datos n linea d).utilidad_neta_2024 = some u →
      (M002.actualizar_datos n linea d).patrimonio_2024 = some p →
      u ≠ 0 → p ≠ 0 →
      ¬(-0.10 < u / p ∧ u / p < 0.30) →
      ∀ ls, M002.procesar_lineas f n (linea :: ls) d
        = M002.procesar_lineas f n ls
            { M002.actualizar_datos n linea d with
              utilidad_neta_2024 := none, patrimonio_2024 := none })
    ∧ (∀ (f : String) (n : Nat) pg pgs (d d' : M002.DatosM002),
        M002.procesar_lineas f n pg d = .inl d' →
        M002.procesar_paginas f n (pg :: pgs) d
          = M002.procesar_paginas f (n + 1) pgs d')
    ∧ (∀ paginas (f : String) (m : MetricaM002),
        M002.extraer_metrica_m002 paginas f = some m →
        -0.10 < m.utilidad_neta_2024 / m.patrimonio_2024
          ∧ m.utilidad_neta_2024 / m.patrimonio_2024 < 0.30)
    ∧ (∀ (f : String) (n : Nat) (d : M002.DatosM002),
        M002.procesar_paginas f n [] d = none) := by
  refine ⟨?_, ?_, ?_, ?_⟩
  · intro f n linea d u p hu hp hu0 hp0 himp ls
    simp only [M002.procesar_lineas]
    suffices hps : M002.paso_linea n linea d f
        = .inl { M002.actualizar_datos n linea d with
                 utilidad_neta_2024 := none, patrimonio_2024 := none } by
      rw [hps]
    simp only [M002.paso_linea, hu, hp]
    simp [M002.es_falsy, hu0, hp0, himp]
  · intro f n pg pgs d d' h
    simp only [M002.procesar_paginas]
    rw [h]
  · intro paginas f m h
    obtain ⟨d2, rfl, h1, h2⟩ := extraer_m002_some paginas f m h
    exact ⟨h1, h2⟩
  · intro f n d
    rfl

/-- C7 (witness): the discard equation on a state holding the
implausible pair `(1, 2)`, the page continuation on an empty page, the
plausibility of the metric returned on the example document, and the
not-found outcome on an exhausted document. -/
theorem c7_descarte_continuacion_testigo :
    M002.procesar_lineas "f" 1 ([] :: [])
        ⟨some 1, some 1, some 2, some 2, some 1⟩
      = M002.procesar_lineas "f" 1 []
          { M002.actualizar_datos 1 [] ⟨some 1, some 1, some 2, some 2, some 1⟩ with
            utilidad_neta_2024 := none, patrimonio_2024 := none }
    ∧ M002.procesar_paginas "f" 1 ([] :: []) {} = M002.procesar_paginas "f" 2 [] {}
    ∧ (-0.10 < metrica_m002_ejemplo.utilidad_neta_2024 / metrica_m002_ejemplo.patrimonio_2024
        ∧ metrica_m002_ejemplo.utilidad_neta_2024 / metrica_m002_ejemplo.patrimonio_2024 < 0.30)
    ∧ M002.procesar_paginas "f" 3 [] {} = none :=
  ⟨c7_descarte_continuacion.1 "f" 1 [] ⟨some 1, some 1, some 2, some 2, some 1⟩ 1 2
      (by decide) (by decide) (by norm_num) (by norm_num) (by norm_num) [],
    c7_descarte_continuacion.2.1 "f" 1 [] [] {} {} rfl,
    c7_descarte_continuacion.2.2.1 doc_ejemplo "f" metrica_m002_ejemplo escaneo_ejemplo,
    c7_descarte_continuacion.2.2.2 "f" 3 {}⟩

/-- C10: whenever the M002 extraction succeeds, the stored
`roe_2024` divides by the average equity `(patrimonio_2024 +
patrimonio_2023) / 2` while `roe_2023` divides by `patrimonio_2023`
alone, and the plausibility check was applied to the non-averaged
quotient `utilidad_neta_2024 / patrimonio_2024`; on the example
document the returned record's stored `roe_2024 = 29/55` itself lies
outside the plausible range, showing the check is not applied to the
stored value. -/
theorem c10_roe_promedio :
    (∀ paginas (f : String) (m : MetricaM002),
      M002.extraer_metrica_m002 paginas f = some m →
        m.roe_2024 = m.utilidad_neta_2024
            / ((m.patrimonio_2024 + m.patrimonio_2023) / 2)
          ∧ m.roe_2023 = m.utilidad_neta_2023 / m.patrimonio_2023
          ∧ (-0.10 < m.utilidad_neta_2024 / m.patrimonio_2024
              ∧ m.utilidad_neta_2024 / m.patrimonio_2024 < 0.30))
    ∧ (M002.extraer_metrica_m002 doc_ejemplo "f" = some metrica_m002_ejemplo
        ∧ ¬ metrica_m002_ejemplo.roe_2024 < 0.30) := by
  constructor
  · intro paginas f m h
    obtain ⟨d2, rfl, h1, h2⟩ := extraer_m002_some paginas f m h
    exact ⟨rfl, rfl, h1, h2⟩
  · exact ⟨escaneo_ejemplo, by norm_num [metrica_m002_ejemplo]⟩

/-- C10 (witness): the ROE equations of the metric returned on the
example document. -/
theorem c10_roe_promedio_testigo :
    metrica_m002_ejemplo.roe_2024
        = metrica_m002_ejemplo.utilidad_neta_2024
            / ((metrica_m002_ejemplo.patrimonio_2024
                + metrica_m002_ejemplo.patrimonio_2023) / 2)
      ∧ metrica_m002_ejemplo.roe_2023
          = metrica_m002_ejemplo.utilidad_neta_2023 / metrica_m002_ejemplo.patrimonio_2023
      ∧ (-0.10 < metrica_m002_ejemplo.utilidad_neta_2024 / metrica_m002_ejemplo.patrimonio_2024
          ∧ metrica_m002_ejemplo.utilidad_neta_2024 / metrica_m002_ejemplo.patrimonio_2024 < 0.30) :=
  c10_roe_promedio.1 doc_ejemplo "f" metrica_m002_ejemplo escaneo_ejemplo
